import Mathlib

/-!
Shallow embedding of the TressTime booking application's repository /
service / validator stacks (Django app under `django_app/`), together with
proofs settling the frozen claims about its specification.

Conventions of the embedding:

* A Python call that can raise is modelled as a `PyResult`: a normal return
  (`ok`), a raised `django.core.exceptions.ValidationError` (`vErr`, carrying
  the message), or any other uncaught Python exception (`exn`, carrying a
  short description such as "IndexError" or "ProtectedError").
* Python values appearing in request payload dictionaries are modelled by
  `PyValue`; payload dictionaries by association lists with unique keys
  (`PyDict`), where `dictGetD d k` models `d.get(k, None)` and
  `dictSet` models `d[k] = v`.
* `datetime` objects are modelled by `PyDatetime`: `t` is the absolute
  instant (used for ordering comparisons of aware datetimes) and `tzinfo`
  models the optional `tzinfo` attribute whose `utcoffset` may itself be
  `None` (`some none`).  An object is aware iff `tzinfo` is `some (some _)`.
* The database is a `DB`: lists of rows, one list per Django model, keeping
  the columns the claims touch (uniqueness columns and the PROTECT foreign
  keys of `Appointment.user`, `Appointment.service`, `Notification.user`,
  `Notification.appointment`).  Row ids are `Nat`, standing for the UUID
  primary keys.
* Character-class checks of the validators' regexes are over ASCII, which
  covers every string the claims and tests use.
-/

set_option autoImplicit false

namespace TressTime

/-- Outcome of a Python call: normal return, raised Django `ValidationError`,
or any other uncaught exception. -/
inductive PyResult (α : Type) where
  | ok (val : α)
  | vErr (msg : String)
  | exn (msg : String)
deriving Repr, DecidableEq

/-- Sequencing of Python statements: a raised exception propagates. -/
def PyResult.bind {α β : Type} : PyResult α → (α → PyResult β) → PyResult β
  | .ok a, f => f a
  | .vErr m, _ => .vErr m
  | .exn m, _ => .exn m

/-- `true` iff the call returned normally. -/
def PyResult.isOk {α : Type} : PyResult α → Bool
  | .ok _ => true
  | .vErr _ => false
  | .exn _ => false

/-- A Python `datetime`: `t` is the absolute instant it denotes (aware
datetimes compare by instant), `tzinfo` is the optional `tzinfo` attribute,
whose `utcoffset(..)` may itself be `None` (modelled `some none`). -/
structure PyDatetime where
  t : Int
  tzinfo : Option (Option Int)
deriving Repr, DecidableEq

/-- The awareness check used throughout the validators:
`x.tzinfo is not None and x.tzinfo.utcoffset(x) is not None`. -/
def PyDatetime.isAware (d : PyDatetime) : Bool :=
  match d.tzinfo with
  | some (some _) => true
  | _ => false

/-- `django.utils.timezone.make_aware(datetime.now())`: the server clock in
an explicit timezone-aware form.  `o` is the attached zone's offset. -/
def make_aware_of_timezone (t : Int) (o : Int) : PyDatetime :=
  { t := t, tzinfo := some (some o) }

/-- A Python value as it appears in a payload dictionary. -/
inductive PyValue where
  | vNone
  | vStr (s : String)
  | vInt (n : Int)
  | vDatetime (d : PyDatetime)
  /-- A float: the exact value `num / den` (with `den > 0` in every payload
  considered, so its sign is the sign of `num`), together with its Python
  `str()` rendering (`validate_price` applies a regex to `str(price)`). -/
  | vFloat (num : Int) (den : Nat) (str : String)
  /-- An uploaded file: content type, byte size, image width and height. -/
  | vFile (contentType : String) (size : Nat) (width : Nat) (height : Nat)
deriving Repr, DecidableEq

/-- Python truthiness of a payload value. -/
def PyValue.truthy : PyValue → Bool
  | .vNone => false
  | .vStr s => !s.isEmpty
  | .vInt n => n != 0
  | .vDatetime _ => true
  | .vFloat num _ _ => num != 0
  | .vFile _ _ _ _ => true

/-- A payload dictionary: association list with unique keys. -/
abbrev PyDict := List (String × PyValue)

/-- `k in d`. -/
def dictHasKey (d : PyDict) (k : String) : Bool :=
  d.any (fun p => p.1 == k)

/-- Lookup of a key, `none` when absent. -/
def dictGet : PyDict → String → Option PyValue
  | [], _ => none
  | (k2, v) :: rest, k => if k2 == k then some v else dictGet rest k

/-- `d.get(k, None)`. -/
def dictGetD (d : PyDict) (k : String) : PyValue :=
  (dictGet d k).getD .vNone

/-- `d[k]`: raises `KeyError` when the key is absent. -/
def dictIndex (d : PyDict) (k : String) : PyResult PyValue :=
  match dictGet d k with
  | some v => .ok v
  | none => .exn ("KeyError: " ++ k)

/-- `d[k] = v`: overwrite in place (replace the existing entry or append). -/
def dictSet (d : PyDict) (k : String) (v : PyValue) : PyDict :=
  match d with
  | [] => [(k, v)]
  | (k2, v2) :: rest =>
    if k2 == k then (k, v) :: rest else (k2, v2) :: dictSet rest k v

/-- `len(x)`: defined on strings, `TypeError` otherwise (the validators only
ever take `len` of strings). -/
def pyLen (v : PyValue) : PyResult Nat :=
  match v with
  | .vStr s => .ok s.length
  | _ => .exn "TypeError: object has no len()"

/-- Python `str.split(sep)` for a one-character separator (no collapsing of
empty segments, `"".split(sep) == [""]`). -/
def pySplitOnChar (sep : Char) : List Char → List (List Char)
  | [] => [[]]
  | c :: rest =>
    match pySplitOnChar sep rest with
    | [] => [[]]
    | h :: t => if c == sep then [] :: h :: t else (c :: h) :: t

/-! ### Timestamp validators

`validate_created_at` / `validate_updated_at` appear verbatim, with identical
bodies and messages, in `UserServiceValidator`, `ServiceServiceValidator` and
`AppointmentServiceValidator`; they are embedded once and shared. -/

/-- `validate_created_at(created_at)` of the three validator classes. -/
def validate_created_at (created_at : PyValue) : PyResult Unit :=
  if created_at == .vNone then .vErr "created_at is required."
  else
    match created_at with
    | .vDatetime d =>
      if !d.isAware then
        .vErr "created_at must be an aware datetime object with timezone information."
      else .ok ()
    | _ => .vErr "created_at must be a datetime object."

/-- `validate_updated_at(updated_at)` of the three validator classes. -/
def validate_updated_at (updated_at : PyValue) : PyResult Unit :=
  if updated_at == .vNone then .vErr "updated_at is required."
  else
    match updated_at with
    | .vDatetime d =>
      if !d.isAware then
        .vErr "updated_at must be an aware datetime object with timezone information."
      else .ok ()
    | _ => .vErr "updated_at must be a datetime object."

/-! ### `UserServiceValidator`
(`users/services/validators/user_service_validator.py`) -/

namespace UserServiceValidator

def ALLOWED_EMAIL_DOMAINS : List String := ["gmail.com", "test.com"]

def ALLOWED_IMAGE_TYPES : List String := ["image/jpeg", "image/png", "image/gif"]

/-- `validate_user_exists(user, user_id)`. -/
def validate_user_exists {α : Type} (user : Option α) (user_id : Nat) : PyResult Unit :=
  match user with
  | none => .vErr ("User with ID " ++ toString user_id ++ " does not exist.")
  | some _ => .ok ()

/-- `re.search(r"[A-Z]", s)` (ASCII range). -/
def containsUpper (s : String) : Bool :=
  s.toList.any (fun c => decide ('A' ≤ c ∧ c ≤ 'Z'))

/-- `re.search(r"[a-z]", s)` (ASCII range). -/
def containsLower (s : String) : Bool :=
  s.toList.any (fun c => decide ('a' ≤ c ∧ c ≤ 'z'))

/-- `re.search(r"\d", s)` (ASCII digits). -/
def containsDigit (s : String) : Bool :=
  s.toList.any Char.isDigit

/-- The special characters of the password rule:
`! @ # $ % ^ & * ( ) , . ? " : { } | < >`. -/
def specialChars : String := "!@#$%^&*(),.?\":\x7b\x7d|<>"

/-- `re.search(r"[!@#$%^&*(),.?\":{}|<>]", s)`. -/
def containsSpecial (s : String) : Bool :=
  s.toList.any (fun c => specialChars.toList.contains c)

/-- `str.isalpha()` (ASCII letters; every string the claims use is ASCII). -/
def pyIsAlpha (s : String) : Bool :=
  !s.isEmpty && s.toList.all Char.isAlpha

/-- Scan the characters after the first `@` for the `[^@]+\.[^@]+` part of
the email regex: a separator `.` preceded (within this segment) by at least
one character, all characters before it non-`@`, and followed by a non-`@`
character. `scanDot` assumes at least one leading segment character has
already been consumed. -/
def scanDot : List Char → Bool
  | [] => false
  | [_] => false
  | x :: y :: rest =>
    if x == '@' then false
    else if x == '.' && y != '@' then true
    else scanDot (y :: rest)

/-- The `[^@]+\.[^@]+` tail: nonempty, first char non-`@`, then a qualifying
dot somewhere after it. -/
def emailTailMatch : List Char → Bool
  | [] => false
  | x :: rest => x != '@' && scanDot rest

/-- Find the first `@` (the chars before it are the `[^@]+` head) and hand
the remainder to `emailTailMatch`. -/
def emailAfterHead : List Char → Bool
  | [] => false
  | '@' :: t => emailTailMatch t
  | _ :: rest => emailAfterHead rest

/-- `re.match(r"[^@]+@[^@]+\.[^@]+", s)`: a prefix of `s` is a nonempty
non-`@` head, `@`, a nonempty non-`@` run, `.`, and one more non-`@` char. -/
def emailMatch (s : String) : Bool :=
  match s.toList with
  | [] => false
  | x :: rest => x != '@' && emailAfterHead (x :: rest)

/-- `validate_username(username, is_update)`. -/
def validate_username (username : PyValue) (is_update : Bool) : PyResult Unit :=
  if !username.truthy && !is_update then .vErr "username is required."
  else if !username.truthy && is_update then .ok ()
  else
    (pyLen username).bind fun n =>
      if n < 5 then .vErr "Username must be at least 5 characters long."
      else .ok ()

/-- `validate_email(email, is_update)`.  After the regex matches, the code
computes `email.split('@')[1]` and checks it against the domain whitelist. -/
def validate_email (email : PyValue) (is_update : Bool) : PyResult Unit :=
  if !email.truthy && !is_update then .vErr "email is required."
  else if !email.truthy && is_update then .ok ()
  else
    match email with
    | .vStr s =>
      if !emailMatch s then .vErr "Invalid email address."
      else
        match (pySplitOnChar '@' s.toList).get? 1 with
        | none => .exn "IndexError: list index out of range"
        | some domain =>
          if ALLOWED_EMAIL_DOMAINS.contains (String.mk domain) then .ok ()
          else .vErr "Email domain is not allowed."
    | _ => .exn "TypeError: expected string or bytes-like object"

/-- `validate_password(password, is_update)`. -/
def validate_password (password : PyValue) (is_update : Bool) : PyResult Unit :=
  if !password.truthy && !is_update then .vErr "password is required."
  else if !password.truthy && is_update then .ok ()
  else
    match password with
    | .vStr s =>
      if s.length < 8 then .vErr "Password must be at least 8 characters long."
      else if !containsUpper s then
        .vErr "Password must contain at least one uppercase letter."
      else if !containsLower s then
        .vErr "Password must contain at least one lowercase letter."
      else if !containsDigit s then
        .vErr "Password must contain at least one digit."
      else if !containsSpecial s then
        .vErr "Password must contain at least one special character."
      else .ok ()
    | _ => .exn "TypeError: object has no len()"

/-- `validate_first_name(first_name)`. -/
def validate_first_name (first_name : PyValue) : PyResult Unit :=
  if !first_name.truthy then .ok ()
  else
    match first_name with
    | .vStr s =>
      if !pyIsAlpha s then
        .vErr "First name must contain only alphabetic characters."
      else if s.length < 1 || s.length > 30 then
        .vErr "First name must be between 1 and 30 characters long."
      else .ok ()
    | _ => .exn "AttributeError: object has no attribute isalpha"

/-- `validate_last_name(last_name)`. -/
def validate_last_name (last_name : PyValue) : PyResult Unit :=
  if !last_name.truthy then .ok ()
  else
    match last_name with
    | .vStr s =>
      if !pyIsAlpha s then
        .vErr "Last name must contain only alphabetic characters."
      else if s.length < 1 || s.length > 30 then
        .vErr "Last name must be between 1 and 30 characters long."
      else .ok ()
    | _ => .exn "AttributeError: object has no attribute isalpha"

/-- `validate_profile_picture(profile_picture)`. -/
def validate_profile_picture (profile_picture : PyValue) : PyResult Unit :=
  if !profile_picture.truthy then .ok ()
  else
    match profile_picture with
    | .vFile contentType size width height =>
      if !("image/".toList.isPrefixOf contentType.toList) || !(ALLOWED_IMAGE_TYPES.contains contentType) then
        .vErr "Uploaded file is not a supported image type"
      else if size > 2 * 1024 * 1024 then
        .vErr "Image file size should not exceed 2MB"
      else if width > 1024 || height > 1024 then
        .vErr "Image dimensions should not exceed 1024x1024 pixels"
      else .ok ()
    | _ => .exn "AttributeError: object has no attribute content_type"

/-- `validate_user_data(user_data, is_update)`.  On success the Python method
falls off the end, returning `None`; that is the `.ok ()` outcome. -/
def validate_user_data (user_data : PyDict) (is_update : Bool) : PyResult Unit :=
  (if is_update then
    if dictHasKey user_data "id" then .vErr "ID cannot be modified."
    else validate_updated_at (dictGetD user_data "updated_at")
  else
    (validate_created_at (dictGetD user_data "created_at")).bind fun _ =>
      validate_updated_at (dictGetD user_data "updated_at")).bind fun _ =>
  (validate_username (dictGetD user_data "username") is_update).bind fun _ =>
  (validate_email (dictGetD user_data "email") is_update).bind fun _ =>
  (validate_password (dictGetD user_data "password") is_update).bind fun _ =>
  (validate_first_name (dictGetD user_data "first_name")).bind fun _ =>
  (validate_last_name (dictGetD user_data "last_name")).bind fun _ =>
  validate_profile_picture (dictGetD user_data "profile_picture")

end UserServiceValidator

/-! ### `ServiceServiceValidator`
(`services/services/validators/service_service_validator.py`) -/

namespace ServiceServiceValidator

/-- `validate_service_exists(service, service_id)`. -/
def validate_service_exists {α : Type} (service : Option α) (service_id : Nat) : PyResult Unit :=
  match service with
  | none => .vErr ("Service with ID " ++ toString service_id ++ " does not exist.")
  | some _ => .ok ()

/-- `sep`-free digit run of length in `[lo, hi]` (a `\d{lo,hi}` regex piece,
ASCII digits). -/
def digitsBetween (l : List Char) (lo hi : Nat) : Bool :=
  l.all Char.isDigit && decide (lo ≤ l.length) && decide (l.length ≤ hi)

/-- `re.match(r'^\d{1,3}(\.\d{1,2})?$', s)`: 1–3 digits, optionally a dot and
1–2 more digits, nothing else.  (Implemented by splitting at `.`; `\d` never
matches a dot, so this is the same language.) -/
def priceRegexMatch (s : String) : Bool :=
  match pySplitOnChar '.' s.toList with
  | [a] => digitsBetween a 1 3
  | [a, b] => digitsBetween a 1 3 && digitsBetween b 1 2
  | _ => false

/-- `validate_name(name)`. -/
def validate_name (name : PyValue) : PyResult Unit :=
  if !name.truthy then .vErr "Service name is required."
  else
    (pyLen name).bind fun n =>
      if n < 3 then .vErr "Service name must be at least 3 characters long."
      else if n > 150 then .vErr "Service name must be no greater than 150 characters long."
      else .ok ()

/-- `validate_description(description)`. -/
def validate_description (description : PyValue) : PyResult Unit :=
  if !description.truthy then .vErr "Service description is required."
  else
    (pyLen description).bind fun n =>
      if n < 10 then .vErr "Service description must be at least 10 characters long."
      else if n > 2000 then .vErr "Service description must be no greater than 2000 characters long."
      else .ok ()

/-- `validate_duration(duration)`.  Note the source's `<=` on the minimum:
a duration of exactly 10 is rejected. -/
def validate_duration (duration : PyValue) : PyResult Unit :=
  if !duration.truthy then .vErr "Service duration is required."
  else
    match duration with
    | .vInt n =>
      if n ≤ 10 then .vErr "Service duration must be at least 10 minutes."
      else if n > 480 then .vErr "Service duration must be no greater than 480 minutes."
      else .ok ()
    | _ => .exn "TypeError: unsupported comparison"

/-- `validate_price(price)`: required, positive, and `str(price)` must match
`^\d{1,3}(\.\d{1,2})?$`. -/
def validate_price (price : PyValue) : PyResult Unit :=
  if !price.truthy then .vErr "Service price is required."
  else
    match price with
    | .vFloat num _ s =>
      if num ≤ 0 then .vErr "Service price must be a positive number."
      else if !priceRegexMatch s then
        .vErr "Service price must have a maximum of 5 digits with up to 2 decimal places."
      else .ok ()
    | .vInt n =>
      if n ≤ 0 then .vErr "Service price must be a positive number."
      else if !priceRegexMatch (toString n) then
        .vErr "Service price must have a maximum of 5 digits with up to 2 decimal places."
      else .ok ()
    | _ => .exn "TypeError: unsupported comparison"

/-- `validate_service_data(service_data, is_update)`.  The field values are
read with plain indexing (`service_data['name']` etc.), so a missing key is a
`KeyError`, not a validation failure. -/
def validate_service_data (service_data : PyDict) (is_update : Bool) : PyResult Unit :=
  (if is_update then
    if dictHasKey service_data "id" then .vErr "ID cannot be modified."
    else validate_updated_at (dictGetD service_data "updated_at")
  else
    (validate_created_at (dictGetD service_data "created_at")).bind fun _ =>
      validate_updated_at (dictGetD service_data "updated_at")).bind fun _ =>
  (dictIndex service_data "name").bind fun name =>
  (validate_name name).bind fun _ =>
  (dictIndex service_data "description").bind fun description =>
  (validate_description description).bind fun _ =>
  (dictIndex service_data "duration").bind fun duration =>
  (validate_duration duration).bind fun _ =>
  (dictIndex service_data "price").bind fun price =>
  validate_price price

end ServiceServiceValidator

/-! ### Database state

One list of rows per Django model, keeping the columns the claims touch.
Uniqueness constraints in the schema: `CustomUser.username`,
`CustomUser.email`, `Service.name`, `Appointment.confirmation_number`, and
every primary key.  PROTECT foreign keys: `Appointment.user`,
`Appointment.service`, `Notification.user`, `Notification.appointment`
(deleting a referenced row raises `ProtectedError`, a subclass of
`IntegrityError`). -/

/-- A stored `CustomUser` row (claim-relevant columns). -/
structure UserRow where
  id : Nat
  username : String
  email : String
  password : String
deriving Repr, DecidableEq

/-- A stored `Service` row (claim-relevant columns; `price` is the exact
decimal `price_num / price_den`). -/
structure ServiceRow where
  id : Nat
  name : String
  description : String
  duration : Int
  price_num : Int
  price_den : Nat
deriving Repr, DecidableEq

/-- A stored `Appointment` row (claim-relevant columns; the
`confirmation_number` column stores the value the client supplied). -/
structure AppointmentRow where
  id : Nat
  starts_at : PyDatetime
  ends_at : PyDatetime
  status : String
  confirmation_number : Option PyValue
  user_id : Nat
  service_id : Nat
deriving Repr, DecidableEq

/-- A stored `Notification` row (claim-relevant columns). -/
structure NotificationRow where
  id : Nat
  message : String
  user_id : Nat
  appointment_id : Option Nat
deriving Repr, DecidableEq

/-- The persistent state. -/
structure DB where
  users : List UserRow
  services : List ServiceRow
  appointments : List AppointmentRow
  notifications : List NotificationRow
deriving Repr, DecidableEq

/-- Some `Appointment` or `Notification` still references user `uid` through
its `on_delete=PROTECT` foreign key. -/
def userReferenced (db : DB) (uid : Nat) : Bool :=
  db.appointments.any (fun a => a.user_id == uid)
    || db.notifications.any (fun n => n.user_id == uid)

/-- Some `Appointment` still references service `sid` (PROTECT). -/
def serviceReferenced (db : DB) (sid : Nat) : Bool :=
  db.appointments.any (fun a => a.service_id == sid)

/-- Some `Notification` still references appointment `aid` (PROTECT). -/
def appointmentReferenced (db : DB) (aid : Nat) : Bool :=
  db.notifications.any (fun n => n.appointment_id == some aid)

/-- `user.delete()` on a fetched row: `ProtectedError` when an `Appointment`
or `Notification` still references the user (both foreign keys are
`on_delete=PROTECT`), otherwise the row is removed. -/
def userRowDelete (db : DB) (uid : Nat) : PyResult DB :=
  if userReferenced db uid then
    .exn "ProtectedError"
  else
    .ok { db with users := db.users.filter (fun u => u.id != uid) }

/-- `service.delete()` on a fetched row: `ProtectedError` when an
`Appointment` still references the service. -/
def serviceRowDelete (db : DB) (sid : Nat) : PyResult DB :=
  if serviceReferenced db sid then
    .exn "ProtectedError"
  else
    .ok { db with services := db.services.filter (fun s => s.id != sid) }

/-- `appointment.delete()` on a fetched row: `ProtectedError` when a
`Notification` still references the appointment. -/
def appointmentRowDelete (db : DB) (aid : Nat) : PyResult DB :=
  if appointmentReferenced db aid then
    .exn "ProtectedError"
  else
    .ok { db with appointments := db.appointments.filter (fun a => a.id != aid) }

/-- `notification.delete()` on a fetched row: nothing references
notifications, so the row is simply removed. -/
def notificationRowDelete (db : DB) (nid : Nat) : PyResult DB :=
  .ok { db with notifications := db.notifications.filter (fun n => n.id != nid) }

/-- An id value as it arrives from the outside: `vInt n` stands for the UUID
of row `n`; any other value is a malformed id (for which `objects.get`
raises a non-`DoesNotExist` error such as `ValueError`). -/
def idMatches (v : PyValue) (id : Nat) : Bool :=
  v == .vInt id

/-- Django's salted password hash, abstracted (its internals are outside the
repository; no claim inspects the stored hash). -/
def hashPassword (p : String) : String :=
  "pbkdf2$" ++ p

/-! ### `UserRepository` (`users/repositories/user_repository.py`)

`create_user` / `update_user` receive their column values through typed
records (`**user_data` keyword expansion of a dict with string keys and
correctly typed values); `update` records mark absent keys with `none`.
`update_user` and `delete_user` are reached with well-formed ids. -/

/-- Payload of `UserRepository.create_user` (claim-relevant columns). -/
structure UserCreateData where
  username : String
  email : String
  password : String
deriving Repr, DecidableEq

/-- Payload of `UserRepository.update_user`. -/
structure UserUpdateData where
  username : Option String
  email : Option String
  password : Option String
deriving Repr, DecidableEq

namespace UserRepository

/-- `get_user_by_id(user_id)`: `objects.get` under a bare `except` returning
`None` — absent ids, malformed ids, any storage error at all give `None`. -/
def get_user_by_id (db : DB) (user_id : PyValue) : PyResult (Option UserRow) :=
  .ok (db.users.find? (fun u => idMatches user_id u.id))

/-- `get_all_users()`. -/
def get_all_users (db : DB) : PyResult (List UserRow) :=
  .ok db.users

/-- `create_user(user_data)`: `objects.create` raising `IntegrityError`
(duplicate id / username / email) is caught and gives `None`; otherwise the
password is popped, hashed with `set_password`, and the row saved. -/
def create_user (db : DB) (newId : Nat) (d : UserCreateData) :
    PyResult (DB × Option UserRow) :=
  if db.users.any (fun u =>
      u.id == newId || u.username == d.username || u.email == d.email) then
    .ok (db, none)
  else
    let row : UserRow :=
      { id := newId, username := d.username, email := d.email,
        password := hashPassword d.password }
    .ok ({ db with users := db.users ++ [row] }, some row)

/-- `update_user(user_id, user_data)`: fetch, hash a provided password,
overwrite the provided fields, save.  `DoesNotExist` and `IntegrityError`
(uniqueness conflict with another row) are caught and give `None`. -/
def update_user (db : DB) (user_id : Nat) (d : UserUpdateData) :
    PyResult (DB × Option UserRow) :=
  match db.users.find? (fun u => u.id == user_id) with
  | none => .ok (db, none)
  | some u =>
    let u2 : UserRow :=
      { u with
        username := d.username.getD u.username,
        email := d.email.getD u.email,
        password := (d.password.map hashPassword).getD u.password }
    if db.users.any (fun v =>
        v.id != u.id && (v.username == u2.username || v.email == u2.email)) then
      .ok (db, none)
    else
      .ok ({ db with users := db.users.map (fun v => if v.id == u.id then u2 else v) },
        some u2)

/-- `delete_user(user_id)`: fetch then `user.delete()`.  Only
`DoesNotExist` is caught (giving `False`); a `ProtectedError` raised by the
delete itself is NOT caught and escapes. -/
def delete_user (db : DB) (user_id : Nat) : PyResult (DB × Bool) :=
  match db.users.find? (fun u => u.id == user_id) with
  | none => .ok (db, false)
  | some u =>
    match userRowDelete db u.id with
    | .ok db2 => .ok (db2, true)
    | .vErr m => .vErr m
    | .exn m => .exn m

end UserRepository

/-! ### `ServiceRepository` (`services/repositories/service_repository.py`) -/

/-- Payload of `ServiceRepository.update_service`. -/
structure ServiceUpdateData where
  name : Option String
  description : Option String
  duration : Option Int
  price : Option (Int × Nat)
deriving Repr, DecidableEq

namespace ServiceRepository

/-- `get_service_by_id(service_id)`: bare `except` → `None`. -/
def get_service_by_id (db : DB) (service_id : PyValue) : PyResult (Option ServiceRow) :=
  .ok (db.services.find? (fun s => idMatches service_id s.id))

/-- `get_all_services()`. -/
def get_all_services (db : DB) : PyResult (List ServiceRow) :=
  .ok db.services

/-- `create_service(service_data)`: `Service.objects.create(**service_data)`
with `IntegrityError` (duplicate id or name, or a missing / null / mistyped
required column) caught and converted to `None`. -/
def create_service (db : DB) (newId : Nat) (d : PyDict) :
    PyResult (DB × Option ServiceRow) :=
  match dictGet d "name", dictGet d "description", dictGet d "duration",
      dictGet d "price" with
  | some (.vStr name), some (.vStr description), some (.vInt duration),
      some (.vFloat price_num price_den _) =>
    if db.services.any (fun s => s.id == newId || s.name == name) then
      .ok (db, none)
    else
      let row : ServiceRow :=
        { id := newId, name := name, description := description,
          duration := duration, price_num := price_num, price_den := price_den }
      .ok ({ db with services := db.services ++ [row] }, some row)
  | _, _, _, _ => .ok (db, none)

/-- `update_service(service_id, service_data)`: fetch, overwrite provided
fields, save; `DoesNotExist` / `IntegrityError` → `None`. -/
def update_service (db : DB) (service_id : Nat) (d : ServiceUpdateData) :
    PyResult (DB × Option ServiceRow) :=
  match db.services.find? (fun s => s.id == service_id) with
  | none => .ok (db, none)
  | some s =>
    let s2 : ServiceRow :=
      { s with
        name := d.name.getD s.name,
        description := d.description.getD s.description,
        duration := d.duration.getD s.duration,
        price_num := (d.price.map Prod.fst).getD s.price_num,
        price_den := (d.price.map Prod.snd).getD s.price_den }
    if db.services.any (fun v => v.id != s.id && v.name == s2.name) then
      .ok (db, none)
    else
      .ok ({ db with services := db.services.map (fun v => if v.id == s.id then s2 else v) },
        some s2)

/-- `delete_service(service_id)`: only `DoesNotExist` is caught (→ `False`);
`ProtectedError` from the delete escapes. -/
def delete_service (db : DB) (service_id : Nat) : PyResult (DB × Bool) :=
  match db.services.find? (fun s => s.id == service_id) with
  | none => .ok (db, false)
  | some s =>
    match serviceRowDelete db s.id with
    | .ok db2 => .ok (db2, true)
    | .vErr m => .vErr m
    | .exn m => .exn m

end ServiceRepository

/-! ### `AppointmentRepository`
(`appointments/repositories/appointment_repository.py`) -/

/-- Payload of `AppointmentRepository.update_appointment`. -/
structure AppointmentUpdateData where
  starts_at : Option PyDatetime
  ends_at : Option PyDatetime
  status : Option String
  confirmation_number : Option PyValue
deriving Repr, DecidableEq

namespace AppointmentRepository

/-- `get_appointment_by_id(appointment_id)`: bare `except` → `None`. -/
def get_appointment_by_id (db : DB) (appointment_id : PyValue) :
    PyResult (Option AppointmentRow) :=
  .ok (db.appointments.find? (fun a => idMatches appointment_id a.id))

/-- `get_all_appointments()`. -/
def get_all_appointments (db : DB) : PyResult (List AppointmentRow) :=
  .ok db.appointments

/-- Modelled from the spec: `get_appointment_by_confirmation_number` is
called by `AppointmentServiceValidator.validate_confirmation_number` but is
missing from `AppointmentRepository` (and its interface) in the source.
Spec §4.2: uniqueness checks "query existing records" sharing the value, and
the validator's unit tests patch `Appointment.objects.filter`; the queryset
is therefore the stored appointments whose `confirmation_number` equals the
given value. -/
def get_appointment_by_confirmation_number (db : DB) (confirmation_number : PyValue) :
    List AppointmentRow :=
  db.appointments.filter (fun a => a.confirmation_number == some confirmation_number)

/-- `create_appointment(appointment_data)`:
`Appointment.objects.create(**appointment_data)` with `IntegrityError`
caught → `None`.  Integrity violations: duplicate id, duplicate (non-null)
confirmation number, missing / null / mistyped required column, or a foreign
key target that does not exist.  The two foreign keys arrive as `user_id` /
`service_id` values. -/
def create_appointment (db : DB) (newId : Nat) (d : PyDict) :
    PyResult (DB × Option AppointmentRow) :=
  match dictGet d "starts_at", dictGet d "ends_at", dictGet d "status",
      dictGet d "user_id", dictGet d "service_id" with
  | some (.vDatetime starts_at), some (.vDatetime ends_at), some (.vStr status),
      some (.vInt (Int.ofNat user_id)), some (.vInt (Int.ofNat service_id)) =>
    let cn : Option PyValue :=
      match dictGet d "confirmation_number" with
      | none => none
      | some .vNone => none
      | some v => some v
    if db.appointments.any (fun a =>
        a.id == newId || (cn.isSome && a.confirmation_number == cn)) then
      .ok (db, none)
    else if !(db.users.any (fun u => u.id == user_id))
        || !(db.services.any (fun s => s.id == service_id)) then
      .ok (db, none)
    else
      let row : AppointmentRow :=
        { id := newId, starts_at := starts_at, ends_at := ends_at,
          status := status, confirmation_number := cn,
          user_id := user_id, service_id := service_id }
      .ok ({ db with appointments := db.appointments ++ [row] }, some row)
  | _, _, _, _, _ => .ok (db, none)

/-- `update_appointment(appointment_id, appointment_data)`: fetch, overwrite
provided fields, save; `DoesNotExist` / `IntegrityError` (confirmation
number conflict with another row) → `None`. -/
def update_appointment (db : DB) (appointment_id : Nat) (d : AppointmentUpdateData) :
    PyResult (DB × Option AppointmentRow) :=
  match db.appointments.find? (fun a => a.id == appointment_id) with
  | none => .ok (db, none)
  | some a =>
    let a2 : AppointmentRow :=
      { a with
        starts_at := d.starts_at.getD a.starts_at,
        ends_at := d.ends_at.getD a.ends_at,
        status := d.status.getD a.status,
        confirmation_number :=
          match d.confirmation_number with
          | none => a.confirmation_number
          | some v => some v }
    if db.appointments.any (fun b =>
        b.id != a.id && a2.confirmation_number.isSome
          && b.confirmation_number == a2.confirmation_number) then
      .ok (db, none)
    else
      .ok ({ db with
          appointments := db.appointments.map (fun b => if b.id == a.id then a2 else b) },
        some a2)

/-- `delete_appointment(appointment_id)`: only `DoesNotExist` is caught
(→ `False`); `ProtectedError` from the delete escapes. -/
def delete_appointment (db : DB) (appointment_id : Nat) : PyResult (DB × Bool) :=
  match db.appointments.find? (fun a => a.id == appointment_id) with
  | none => .ok (db, false)
  | some a =>
    match appointmentRowDelete db a.id with
    | .ok db2 => .ok (db2, true)
    | .vErr m => .vErr m
    | .exn m => .exn m

end AppointmentRepository

/-! ### `NotificationRepository`
(`notifications/repositories/notification_repository.py`) -/

/-- Payload of `NotificationRepository.create_notification`
(claim-relevant columns). -/
structure NotificationCreateData where
  message : String
  user_id : Nat
  appointment_id : Option Nat
deriving Repr, DecidableEq

/-- Payload of `NotificationRepository.update_notification`. -/
structure NotificationUpdateData where
  message : Option String
deriving Repr, DecidableEq

namespace NotificationRepository

/-- `get_notification_by_id(notification_id)`: bare `except` → `None`. -/
def get_notification_by_id (db : DB) (notification_id : PyValue) :
    PyResult (Option NotificationRow) :=
  .ok (db.notifications.find? (fun n => idMatches notification_id n.id))

/-- `get_all_notifications()`. -/
def get_all_notifications (db : DB) : PyResult (List NotificationRow) :=
  .ok db.notifications

/-- `create_notification(notification_data)`: `objects.create` with
`IntegrityError` (duplicate id, missing foreign key target) caught →
`None`. -/
def create_notification (db : DB) (newId : Nat) (d : NotificationCreateData) :
    PyResult (DB × Option NotificationRow) :=
  if db.notifications.any (fun n => n.id == newId)
      || !(db.users.any (fun u => u.id == d.user_id))
      || (match d.appointment_id with
          | none => false
          | some aid => !(db.appointments.any (fun a => a.id == aid))) then
    .ok (db, none)
  else
    let row : NotificationRow :=
      { id := newId, message := d.message, user_id := d.user_id,
        appointment_id := d.appointment_id }
    .ok ({ db with notifications := db.notifications ++ [row] }, some row)

/-- `update_notification(notification_id, notification_data)`:
`DoesNotExist` / `IntegrityError` → `None`. -/
def update_notification (db : DB) (notification_id : Nat) (d : NotificationUpdateData) :
    PyResult (DB × Option NotificationRow) :=
  match db.notifications.find? (fun n => n.id == notification_id) with
  | none => .ok (db, none)
  | some n =>
    let n2 : NotificationRow := { n with message := d.message.getD n.message }
    .ok ({ db with
        notifications := db.notifications.map (fun m => if m.id == n.id then n2 else m) },
      some n2)

/-- `delete_notification(notification_id)`: `DoesNotExist` → `False`;
nothing references a notification, so the delete itself cannot be
protected. -/
def delete_notification (db : DB) (notification_id : Nat) : PyResult (DB × Bool) :=
  match db.notifications.find? (fun n => n.id == notification_id) with
  | none => .ok (db, false)
  | some n =>
    match notificationRowDelete db n.id with
    | .ok db2 => .ok (db2, true)
    | .vErr m => .vErr m
    | .exn m => .exn m

end NotificationRepository

/-! ### `AppointmentServiceValidator`
(`appointments/services/validators/appointment_service_validator.py`) -/

namespace AppointmentServiceValidator

def ALLOWED_APPOINTMENT_STATUSES : List String := ["scheduled", "completed", "canceled"]

/-- `validate_appointment_exists(appointment, appointment_id)`. -/
def validate_appointment_exists {α : Type} (appointment : Option α) (appointment_id : Nat) :
    PyResult Unit :=
  match appointment with
  | none => .vErr ("Appointment with ID " ++ toString appointment_id ++ " does not exist.")
  | some _ => .ok ()

/-- `validate_starts_at_ends_at(starts_at, ends_at)`.  (The message of the
final check reads "End time cannot be earlier than end time" in the
source.) -/
def validate_starts_at_ends_at (starts_at ends_at : PyValue) : PyResult Unit :=
  if starts_at == .vNone || ends_at == .vNone then
    .vErr "Both starts_at and ends_at are required."
  else
    match starts_at, ends_at with
    | .vDatetime s, .vDatetime e =>
      if !s.isAware || !e.isAware then
        .vErr "Both starts_at and ends_at must be aware datetime objects with timezone information."
      else if s.t > e.t then .vErr "End time cannot be earlier than end time"
      else .ok ()
    | _, _ => .vErr "Both starts_at and ends_at must be datetime objects"

/-- `validate_status(status)`. -/
def validate_status (status : PyValue) : PyResult Unit :=
  if !status.truthy then .vErr "status is required."
  else
    match status with
    | .vStr s =>
      if ALLOWED_APPOINTMENT_STATUSES.contains s then .ok ()
      else .vErr "status must be one of the following: scheduled, completed, canceled"
    | _ => .vErr "status must be one of the following: scheduled, completed, canceled"

/-- `", ".join(str(a) for a in ids)`. -/
def joinIds (ids : List Nat) : String :=
  String.intercalate ", " (ids.map toString)

/-- `validate_confirmation_number(confirmation_number, appointment_id)`.

The queryset is reduced with `values_list('id', flat=True)`, so
`appointment_list` is a list of raw id (UUID) values.  After the
`len > 1` check the source runs `appointment = appointment_list[0]` with no
guard — on an empty list this raises `IndexError` — and then accesses
`appointment.id`, an attribute a UUID value does not have, raising
`AttributeError`.  The trailing 9-digit length check is unreachable. -/
def validate_confirmation_number (db : DB) (confirmation_number : PyValue)
    (appointment_id : PyValue) : PyResult Unit :=
  if !confirmation_number.truthy then .ok ()
  else
    let appointment_list :=
      (AppointmentRepository.get_appointment_by_confirmation_number db
        confirmation_number).map (fun a => a.id)
    if appointment_list.length > 1 then
      .vErr ("Multiple appointments (" ++ joinIds appointment_list
        ++ ") with same confirmation number. Confirmation number must be unique")
    else
      match appointment_list with
      | [] => .exn "IndexError: list index out of range"
      | _ :: _ => .exn "AttributeError: UUID object has no attribute id"

/-- `validate_appointment_data(appointment_data, is_update)`. -/
def validate_appointment_data (db : DB) (appointment_data : PyDict) (is_update : Bool) :
    PyResult Unit :=
  (if is_update then
    if dictHasKey appointment_data "id" then .vErr "ID cannot be modified."
    else validate_updated_at (dictGetD appointment_data "updated_at")
  else
    (validate_created_at (dictGetD appointment_data "created_at")).bind fun _ =>
      validate_updated_at (dictGetD appointment_data "updated_at")).bind fun _ =>
  (validate_starts_at_ends_at (dictGetD appointment_data "starts_at")
    (dictGetD appointment_data "ends_at")).bind fun _ =>
  (validate_status (dictGetD appointment_data "status")).bind fun _ =>
  validate_confirmation_number db (dictGetD appointment_data "confirmation_number")
    (dictGetD appointment_data "id")

end AppointmentServiceValidator

/-! ### Service layer

Each `create` runs
`data['created_at'] = make_aware(datetime.now())` and
`data['updated_at'] = make_aware(datetime.now())` on the caller's dict (two
successive clock reads, modelled by the parameters `now1`, `now2`); each
`update` runs only `data['updated_at'] = make_aware(datetime.now())`. -/

/-- The two stamping statements at the top of every service-layer `create`. -/
def stampCreate (d : PyDict) (now1 now2 : PyDatetime) : PyDict :=
  dictSet (dictSet d "created_at" (.vDatetime now1)) "updated_at" (.vDatetime now2)

/-- The stamping statement of every service-layer `update`. -/
def stampUpdate (d : PyDict) (now : PyDatetime) : PyDict :=
  dictSet d "updated_at" (.vDatetime now)

/-- The `**user_data` keyword view of an update payload as it reaches
`UserRepository.update_user` (validated payloads carry string values in
these keys). -/
def userUpdateDataOfDict (d : PyDict) : UserUpdateData :=
  { username := match dictGet d "username" with | some (.vStr s) => some s | _ => none,
    email := match dictGet d "email" with | some (.vStr s) => some s | _ => none,
    password := match dictGet d "password" with | some (.vStr s) => some s | _ => none }

/-! ### `UserService` (`users/services/user_service.py`) -/

namespace UserService

/-- `get_user(user_id)`. -/
def get_user (db : DB) (user_id : Nat) : PyResult (Option UserRow) :=
  (UserRepository.get_user_by_id db (.vInt user_id)).bind fun user =>
  (UserServiceValidator.validate_user_exists user user_id).bind fun _ =>
  .ok user

/-- `create_user(user_data)`: stamp both timestamps, then
`if not self.validator.validate_user_data(user_data): raise
ValidationError("Invalid user data provided.")`.  `validate_user_data`
returns `None` on success, which is falsy, so whenever validation passes the
method raises; the repository call below the check is unreachable.  When the
validator itself raises, that exception propagates (the `try` wraps only the
repository call). -/
def create_user (db : DB) (now1 now2 : PyDatetime) (user_data : PyDict) :
    PyResult (DB × Unit) :=
  let d := stampCreate user_data now1 now2
  match UserServiceValidator.validate_user_data d false with
  | .vErr m => .vErr m
  | .exn m => .exn m
  | .ok _ => .vErr "Invalid user data provided."

/-- `update_user(user_id, user_data)`: existence check, stamp `updated_at`,
validate in update mode, then the repository call with `except Exception`
wrapped into `ValidationError("Error updating user: ...")`. -/
def update_user (db : DB) (user_id : Nat) (now : PyDatetime) (user_data : PyDict) :
    PyResult (DB × Option UserRow) :=
  (UserRepository.get_user_by_id db (.vInt user_id)).bind fun user =>
  (UserServiceValidator.validate_user_exists user user_id).bind fun _ =>
  let d := stampUpdate user_data now
  (UserServiceValidator.validate_user_data d true).bind fun _ =>
  match UserRepository.update_user db user_id (userUpdateDataOfDict d) with
  | .ok r => .ok r
  | .vErr m => .vErr ("Error updating user: " ++ m)
  | .exn m => .vErr ("Error updating user: " ++ m)

/-- `delete_user(user_id)`: existence check, then the repository call with
`except Exception` wrapped into `ValidationError("Error deleting user:
...")`. -/
def delete_user (db : DB) (user_id : Nat) : PyResult (DB × Bool) :=
  (UserRepository.get_user_by_id db (.vInt user_id)).bind fun user =>
  (UserServiceValidator.validate_user_exists user user_id).bind fun _ =>
  match UserRepository.delete_user db user_id with
  | .ok r => .ok r
  | .vErr m => .vErr ("Error deleting user: " ++ m)
  | .exn m => .vErr ("Error deleting user: " ++ m)

end UserService

/-! ### `ServiceService` (`services/services/service_service.py`) -/

/-- The `**service_data` keyword view of an update payload as it reaches
`ServiceRepository.update_service`. -/
def serviceUpdateDataOfDict (d : PyDict) : ServiceUpdateData :=
  { name := match dictGet d "name" with | some (.vStr s) => some s | _ => none,
    description := match dictGet d "description" with | some (.vStr s) => some s | _ => none,
    duration := match dictGet d "duration" with | some (.vInt n) => some n | _ => none,
    price := match dictGet d "price" with
      | some (.vFloat num den _) => some (num, den)
      | _ => none }

namespace ServiceService

/-- `get_service(service_id)`. -/
def get_service (db : DB) (service_id : Nat) : PyResult (Option ServiceRow) :=
  (ServiceRepository.get_service_by_id db (.vInt service_id)).bind fun s =>
  (ServiceServiceValidator.validate_service_exists s service_id).bind fun _ =>
  .ok s

/-- `create_service(service_data)`: stamp both timestamps, validate (raises
propagate), then `return self.service_repository.create_service(...)` with
`except Exception` wrapped into `ValidationError("Error creating service:
...")`.  The repository's `None` sentinel is returned as-is. -/
def create_service (db : DB) (newId : Nat) (now1 now2 : PyDatetime)
    (service_data : PyDict) : PyResult (DB × Option ServiceRow) :=
  let d := stampCreate service_data now1 now2
  (ServiceServiceValidator.validate_service_data d false).bind fun _ =>
  match ServiceRepository.create_service db newId d with
  | .ok r => .ok r
  | .vErr m => .vErr ("Error creating service: " ++ m)
  | .exn m => .vErr ("Error creating service: " ++ m)

/-- `update_service(service_id, service_data)`. -/
def update_service (db : DB) (service_id : Nat) (now : PyDatetime)
    (service_data : PyDict) : PyResult (DB × Option ServiceRow) :=
  (ServiceRepository.get_service_by_id db (.vInt service_id)).bind fun s =>
  (ServiceServiceValidator.validate_service_exists s service_id).bind fun _ =>
  let d := stampUpdate service_data now
  (ServiceServiceValidator.validate_service_data d true).bind fun _ =>
  match ServiceRepository.update_service db service_id (serviceUpdateDataOfDict d) with
  | .ok r => .ok r
  | .vErr m => .vErr ("Error updating service: " ++ m)
  | .exn m => .vErr ("Error updating service: " ++ m)

/-- `delete_service(service_id)`: existence check, then the repository call
with NO try/except — repository exceptions propagate unwrapped. -/
def delete_service (db : DB) (service_id : Nat) : PyResult (DB × Bool) :=
  (ServiceRepository.get_service_by_id db (.vInt service_id)).bind fun s =>
  (ServiceServiceValidator.validate_service_exists s service_id).bind fun _ =>
  ServiceRepository.delete_service db service_id

end ServiceService

/-! ### `AppointmentService` (`appointments/services/appointment_service.py`) -/

/-- The `**appointment_data` keyword view of an update payload as it reaches
`AppointmentRepository.update_appointment`. -/
def appointmentUpdateDataOfDict (d : PyDict) : AppointmentUpdateData :=
  { starts_at := match dictGet d "starts_at" with | some (.vDatetime x) => some x | _ => none,
    ends_at := match dictGet d "ends_at" with | some (.vDatetime x) => some x | _ => none,
    status := match dictGet d "status" with | some (.vStr s) => some s | _ => none,
    confirmation_number := dictGet d "confirmation_number" }

namespace AppointmentService

/-- `get_appointment(appointment_id)`. -/
def get_appointment (db : DB) (appointment_id : Nat) : PyResult (Option AppointmentRow) :=
  (AppointmentRepository.get_appointment_by_id db (.vInt appointment_id)).bind fun a =>
  (AppointmentServiceValidator.validate_appointment_exists a appointment_id).bind fun _ =>
  .ok a

/-- `create_appointment(appointment_data)`: stamp both timestamps, validate
(raises propagate), repository create wrapped by `except Exception`; the
method returns `None` (there is no `return` statement). -/
def create_appointment (db : DB) (newId : Nat) (now1 now2 : PyDatetime)
    (appointment_data : PyDict) : PyResult (DB × Unit) :=
  let d := stampCreate appointment_data now1 now2
  (AppointmentServiceValidator.validate_appointment_data db d false).bind fun _ =>
  match AppointmentRepository.create_appointment db newId d with
  | .ok (db2, _) => .ok (db2, ())
  | .vErr m => .vErr ("Error creating appointment: " ++ m)
  | .exn m => .vErr ("Error creating appointment: " ++ m)

/-- `update_appointment(appointment_id, appointment_data)`. -/
def update_appointment (db : DB) (appointment_id : Nat) (now : PyDatetime)
    (appointment_data : PyDict) : PyResult (DB × Option AppointmentRow) :=
  (AppointmentRepository.get_appointment_by_id db (.vInt appointment_id)).bind fun a =>
  (AppointmentServiceValidator.validate_appointment_exists a appointment_id).bind fun _ =>
  let d := stampUpdate appointment_data now
  (AppointmentServiceValidator.validate_appointment_data db d true).bind fun _ =>
  match AppointmentRepository.update_appointment db appointment_id
      (appointmentUpdateDataOfDict d) with
  | .ok r => .ok r
  | .vErr m => .vErr ("Error updating appointment: " ++ m)
  | .exn m => .vErr ("Error updating appointment: " ++ m)

/-- `delete_appointment(appointment_id)`: existence check, then the
repository call with `except Exception` wrapped into
`ValidationError("Error deleting appointment: ...")`. -/
def delete_appointment (db : DB) (appointment_id : Nat) : PyResult (DB × Bool) :=
  (AppointmentRepository.get_appointment_by_id db (.vInt appointment_id)).bind fun a =>
  (AppointmentServiceValidator.validate_appointment_exists a appointment_id).bind fun _ =>
  match AppointmentRepository.delete_appointment db appointment_id with
  | .ok r => .ok r
  | .vErr m => .vErr ("Error deleting appointment: " ++ m)
  | .exn m => .vErr ("Error deleting appointment: " ++ m)

end AppointmentService

/-! ## Helper lemmas and concrete fixtures -/

/-- Two concrete server-clock readings (aware datetimes). -/
def nowA : PyDatetime := make_aware_of_timezone 1700000000 0

def nowB : PyDatetime := make_aware_of_timezone 1700000060 0

/-- An empty database. -/
def emptyDB : DB := { users := [], services := [], appointments := [], notifications := [] }

theorem dictGet_dictSet_same (d : PyDict) (k : String) (v : PyValue) :
    dictGet (dictSet d k v) k = some v := by
  induction d with
  | nil => simp [dictSet, dictGet]
  | cons p rest ih =>
    obtain ⟨k2, v2⟩ := p
    by_cases h : k2 = k
    · subst h; simp [dictSet, dictGet]
    · simp [dictSet, dictGet, h, ih]

theorem dictGet_dictSet_other (d : PyDict) (k k2 : String) (v : PyValue)
    (h : k2 ≠ k) : dictGet (dictSet d k v) k2 = dictGet d k2 := by
  induction d with
  | nil => simp [dictSet, dictGet, Ne.symm h]
  | cons p rest ih =>
    obtain ⟨k3, v3⟩ := p
    by_cases h3 : k3 = k
    · subst h3; simp [dictSet, dictGet, Ne.symm h]
    · simp [dictSet, dictGet, h3, ih]

theorem dictSet_dictSet_same (d : PyDict) (k : String) (v v2 : PyValue) :
    dictSet (dictSet d k v) k v2 = dictSet d k v2 := by
  induction d with
  | nil => simp [dictSet]
  | cons p rest ih =>
    obtain ⟨k3, v3⟩ := p
    by_cases h : k3 = k
    · subst h; simp [dictSet]
    · simp [dictSet, h, ih]

/-! ## Claims -/

/-- **C9**: user password validation rejects `"lowercase1!"` for its missing
uppercase letter and accepts `"Valid1Password!"`. -/
theorem c9_password_examples :
    UserServiceValidator.validate_password (.vStr "lowercase1!") false
        = .vErr "Password must contain at least one uppercase letter."
      ∧ UserServiceValidator.validate_password (.vStr "Valid1Password!") false
        = .ok () := by
  exact ⟨by rfl, by rfl⟩

/-- **C8**: service price validation rejects `12345.678` and `1234.567`
(digit/decimal bounds of the `^\d{1,3}(\.\d{1,2})?$` pattern) and accepts
`123.45`. -/
theorem c8_price_examples :
    ServiceServiceValidator.validate_price (.vFloat 12345678 1000 "12345.678")
        = .vErr "Service price must have a maximum of 5 digits with up to 2 decimal places."
      ∧ ServiceServiceValidator.validate_price (.vFloat 1234567 1000 "1234.567")
        = .vErr "Service price must have a maximum of 5 digits with up to 2 decimal places."
      ∧ ServiceServiceValidator.validate_price (.vFloat 12345 100 "123.45")
        = .ok () := by
  refine ⟨?_, ?_, ?_⟩ <;> rfl

/-- **C7**: for aware datetimes, `validate_starts_at_ends_at` fails exactly
when `starts_at > ends_at`, and accepts equality (and `starts_at <
ends_at`). -/
theorem c7_starts_at_ends_at (s e : PyDatetime)
    (hs : s.isAware = true) (he : e.isAware = true) :
    AppointmentServiceValidator.validate_starts_at_ends_at (.vDatetime s) (.vDatetime e)
      = if s.t > e.t then .vErr "End time cannot be earlier than end time"
        else .ok () := by
  simp [AppointmentServiceValidator.validate_starts_at_ends_at, hs, he]

/-- Witness for C7: the equal-instants pair is accepted. -/
theorem c7_starts_at_ends_at_witness :
    AppointmentServiceValidator.validate_starts_at_ends_at
        (.vDatetime nowA) (.vDatetime nowA) = .ok () := by
  have h := c7_starts_at_ends_at nowA nowA (by rfl) (by rfl)
  simpa using h

/-- **C6**: in update mode, a payload containing the key `id` is rejected by
all three validators with "ID cannot be modified.", whatever the other
fields hold. -/
theorem c6_update_id_rejected (d : PyDict) (db : DB)
    (h : dictHasKey d "id" = true) :
    UserServiceValidator.validate_user_data d true = .vErr "ID cannot be modified."
      ∧ ServiceServiceValidator.validate_service_data d true = .vErr "ID cannot be modified."
      ∧ AppointmentServiceValidator.validate_appointment_data db d true
        = .vErr "ID cannot be modified." := by
  refine ⟨?_, ?_, ?_⟩
  · simp [UserServiceValidator.validate_user_data, h, PyResult.bind]
  · simp [ServiceServiceValidator.validate_service_data, h, PyResult.bind]
  · simp [AppointmentServiceValidator.validate_appointment_data, h, PyResult.bind]

/-- Witness for C6: a payload of nothing but an `id` key. -/
theorem c6_update_id_rejected_witness :
    UserServiceValidator.validate_user_data [("id", .vStr "some-id")] true
      = .vErr "ID cannot be modified." :=
  (c6_update_id_rejected [("id", .vStr "some-id")] emptyDB (by rfl)).1

/-- A user-creation payload every field of which passes validation:
username ≥ 5 chars, whitelisted email, policy-conformant password, alphabetic
names, no picture. -/
def validUserPayload : PyDict :=
  [("username", .vStr "testuser"),
   ("email", .vStr "testuser@gmail.com"),
   ("password", .vStr "Valid1Password!"),
   ("first_name", .vStr "John"),
   ("last_name", .vStr "Doe")]

/-- **C1** (the claim fails on the code): after stamping, every field of
`validUserPayload` passes validation — `validate_user_data` returns `None` —
yet `UserService.create_user` raises
`ValidationError("Invalid user data provided.")`, because it tests the
validator's always-`None` return value with `if not ...`.  The user is never
persisted; no fully valid payload can ever be created through this method
(third conjunct). -/
theorem c1_create_user_raises_on_valid_payload :
    UserServiceValidator.validate_user_data (stampCreate validUserPayload nowA nowB) false
        = .ok ()
      ∧ UserService.create_user emptyDB nowA nowB validUserPayload
        = .vErr "Invalid user data provided."
      ∧ ∀ (db : DB) (n1 n2 : PyDatetime) (d : PyDict),
          (UserService.create_user db n1 n2 d).isOk = false := by
  refine ⟨by rfl, by rfl, ?_⟩
  intro db n1 n2 d
  cases h : UserServiceValidator.validate_user_data (stampCreate d n1 n2) false <;>
    simp [UserService.create_user, h, PyResult.isOk]

/-- The database used for the C3 evaluation with exactly one stored
appointment carrying confirmation number `"123456789"`. -/
def dbOneConfirmation : DB :=
  { users := [{ id := 1, username := "alice", email := "alice@gmail.com", password := "x" }],
    services := [{ id := 2, name := "Haircut", description := "A classic haircut.",
                   duration := 30, price_num := 2500, price_den := 100 }],
    appointments := [{ id := 3, starts_at := nowA, ends_at := nowB,
                       status := "scheduled", confirmation_number := some (.vStr "123456789"),
                       user_id := 1, service_id := 2 }],
    notifications := [] }

/-- **C3** (the claim fails on the code): `validate_confirmation_number`
does not pass when no other appointment shares the 9-digit value — with zero
matching rows `appointment_list[0]` raises `IndexError` (first conjunct,
empty database), and with exactly one matching row — even the appointment
being validated itself — the subsequent `appointment.id` attribute access on
a raw UUID value raises `AttributeError` instead of any validation outcome
(second conjunct).  Only the more-than-one branch raises the promised
validation failure (third conjunct, duplicated row). -/
theorem c3_confirmation_number_crashes :
    AppointmentServiceValidator.validate_confirmation_number emptyDB
        (.vStr "123456789") .vNone
      = .exn "IndexError: list index out of range"
    ∧ AppointmentServiceValidator.validate_confirmation_number dbOneConfirmation
        (.vStr "123456789") (.vInt 3)
      = .exn "AttributeError: UUID object has no attribute id"
    ∧ AppointmentServiceValidator.validate_confirmation_number
        { dbOneConfirmation with
          appointments := dbOneConfirmation.appointments
            ++ [{ id := 4, starts_at := nowA, ends_at := nowB,
                  status := "scheduled",
                  confirmation_number := some (.vStr "123456789"),
                  user_id := 1, service_id := 2 }] }
        (.vStr "123456789") .vNone
      = .vErr "Multiple appointments (3, 4) with same confirmation number. Confirmation number must be unique" := by
  refine ⟨by rfl, by rfl, by rfl⟩

/-- `ServiceRepository.create_service` never raises: every branch returns
normally (`IntegrityError` is absorbed into the `None` sentinel). -/
theorem create_service_never_raises (db : DB) (newId : Nat) (d : PyDict) :
    (ServiceRepository.create_service db newId d).isOk = true := by
  unfold ServiceRepository.create_service
  split
  · split <;> rfl
  · rfl

/-- A database already holding a service named "Haircut". -/
def c4db : DB :=
  { users := [], appointments := [], notifications := [],
    services := [{ id := 2, name := "Haircut", description := "A classic haircut.",
                   duration := 30, price_num := 2500, price_den := 100 }] }

/-- A service-creation payload that passes validation but collides with the
stored unique name "Haircut". -/
def c4Payload : PyDict :=
  [("name", .vStr "Haircut"),
   ("description", .vStr "A classic haircut."),
   ("duration", .vInt 30),
   ("price", .vFloat 250 10 "25.0")]

/-- **C4 counterexample**: the payload passes validation (first conjunct),
the storage uniqueness constraint on the name makes the repository return
its `None` sentinel (second conjunct), and `ServiceService.create_service`
then completes silently, returning `None` with no entity created and *no*
validation failure raised (third conjunct) — contradicting the claim that a
creation error is surfaced. -/
theorem c4_counterexample :
    ServiceServiceValidator.validate_service_data (stampCreate c4Payload nowA nowB) false
        = .ok ()
      ∧ ServiceRepository.create_service c4db 99 (stampCreate c4Payload nowA nowB)
        = .ok (c4db, none)
      ∧ ServiceService.create_service c4db 99 nowA nowB c4Payload
        = .ok (c4db, none) := by
  refine ⟨by rfl, by rfl, by rfl⟩

/-- **C4 amended**: when validation passes, the service-layer create returns
the repository result unchanged; since the repository converts storage
constraint violations into its `None` sentinel and never raises, a
constraint violation during create yields a silent `None` from
`ServiceService.create_service`, not a validation failure (the
`except`-wrap branch is unreachable). -/
theorem c4_amended (db : DB) (newId : Nat) (n1 n2 : PyDatetime) (d : PyDict)
    (h : ServiceServiceValidator.validate_service_data (stampCreate d n1 n2) false
      = .ok ()) :
    ServiceService.create_service db newId n1 n2 d
      = ServiceRepository.create_service db newId (stampCreate d n1 n2) := by
  have hrepo := create_service_never_raises db newId (stampCreate d n1 n2)
  simp only [ServiceService.create_service, h, PyResult.bind]
  cases hr : ServiceRepository.create_service db newId (stampCreate d n1 n2) with
  | ok r => rfl
  | vErr m => rw [hr] at hrepo; exact absurd hrepo (by simp [PyResult.isOk])
  | exn m => rw [hr] at hrepo; exact absurd hrepo (by simp [PyResult.isOk])

/-- Witness for C4's amended claim at the concrete duplicate-name input. -/
theorem c4_amended_witness :
    ServiceService.create_service c4db 99 nowA nowB c4Payload
      = ServiceRepository.create_service c4db 99 (stampCreate c4Payload nowA nowB) :=
  c4_amended c4db 99 nowA nowB c4Payload (by rfl)

/-- An incoming integer id value matches a stored row id exactly when the
numbers agree. -/
theorem idMatches_vInt (uid i : Nat) : idMatches (.vInt uid) i = (uid == i) := by
  by_cases h : uid = i <;> simp [idMatches, h]

/-- Searching a filtered list with a test that the filter's predicate
refutes finds nothing. -/
theorem find?_filter_none {α : Type} (l : List α) (p q : α → Bool)
    (hpq : ∀ a, p a = true → q a = false) :
    (l.filter p).find? q = none := by
  induction l with
  | nil => rfl
  | cons a rest ih =>
    cases hp : p a with
    | false => simpa [List.filter_cons, hp] using ih
    | true => simp [List.filter_cons, hp, List.find?, hpq a hp, ih]

/-- A database holding one deletable user with id 7. -/
def c5db : DB :=
  { users := [{ id := 7, username := "bobby", email := "bobby@gmail.com",
                password := "Valid1Password!" }],
    services := [], appointments := [], notifications := [] }

/-- **C5**: after a service-layer delete of a user id succeeds, a second
delete of the same id yields the "not found" validation failure (the
existence check raises `ValidationError("User with ID ... does not
exist.")`), not an unexpected exception. -/
theorem c5_second_delete_not_found (db db2 : DB) (uid : Nat)
    (h : UserService.delete_user db uid = .ok (db2, true)) :
    UserService.delete_user db2 uid
      = .vErr ("User with ID " ++ toString uid ++ " does not exist.") := by
  simp only [UserService.delete_user, UserRepository.get_user_by_id,
    UserRepository.delete_user, PyResult.bind] at h
  cases hf : db.users.find? (fun u => idMatches (PyValue.vInt uid) u.id) with
  | none =>
    rw [hf] at h
    simp [UserServiceValidator.validate_user_exists, PyResult.bind] at h
  | some u =>
    rw [hf] at h
    simp only [UserServiceValidator.validate_user_exists, PyResult.bind] at h
    cases hf2 : db.users.find? (fun u => u.id == uid) with
    | none => rw [hf2] at h; simp at h
    | some u2 =>
      rw [hf2] at h
      have hid : u2.id = uid := by
        have hp := List.find?_some hf2
        simpa using hp
      simp only [userRowDelete] at h
      cases href : userReferenced db u2.id with
      | true => rw [href] at h; simp at h
      | false =>
        rw [href] at h
        simp only [Bool.false_eq_true, if_false, PyResult.ok.injEq,
          Prod.mk.injEq, and_true] at h
        rw [hid] at h
        simp only [UserService.delete_user, UserRepository.get_user_by_id,
          PyResult.bind]
        have hnone : db2.users.find? (fun u => idMatches (PyValue.vInt uid) u.id)
            = none := by
          rw [← h]
          refine find?_filter_none _ _ _ (fun a hpa => ?_)
          have hne : a.id ≠ uid := by simpa using hpa
          rw [idMatches_vInt]
          simp [Ne.symm hne]
        rw [hnone]
        rfl

/-- Witness for C5: deleting user 7 from `c5db` succeeds and leaves the
empty database; a second delete on the emptied database reports "not
found". -/
theorem c5_second_delete_not_found_witness :
    UserService.delete_user emptyDB 7 = .vErr "User with ID 7 does not exist." :=
  c5_second_delete_not_found c5db emptyDB 7 (by rfl)

/-- A user row with the given id is stored. -/
def userExists (db : DB) (uid : Nat) : Bool :=
  db.users.any (fun u => u.id == uid)

/-- A service row with the given id is stored. -/
def serviceExists (db : DB) (sid : Nat) : Bool :=
  db.services.any (fun s => s.id == sid)

/-- An appointment row with the given id is stored. -/
def appointmentExists (db : DB) (aid : Nat) : Bool :=
  db.appointments.any (fun a => a.id == aid)

theorem delete_user_isOk (db : DB) (uid : Nat) :
    (UserRepository.delete_user db uid).isOk
      = !(userExists db uid && userReferenced db uid) := by
  unfold UserRepository.delete_user
  cases hf : db.users.find? (fun u => u.id == uid) with
  | none =>
    have hex : userExists db uid = false := by
      simp only [userExists, List.any_eq_false]
      intro x hx
      simpa using List.find?_eq_none.mp hf x hx
    simp [hex, PyResult.isOk]
  | some u =>
    have hid : u.id = uid := by simpa using List.find?_some hf
    have hex : userExists db uid = true := by
      simp only [userExists, List.any_eq_true]
      exact ⟨u, List.mem_of_find?_eq_some hf, by simp [hid]⟩
    simp only [userRowDelete, hid]
    cases href : userReferenced db uid with
    | true => simp [href, hex, PyResult.isOk]
    | false => simp [href, hex, PyResult.isOk]

theorem delete_service_isOk (db : DB) (sid : Nat) :
    (ServiceRepository.delete_service db sid).isOk
      = !(serviceExists db sid && serviceReferenced db sid) := by
  unfold ServiceRepository.delete_service
  cases hf : db.services.find? (fun s => s.id == sid) with
  | none =>
    have hex : serviceExists db sid = false := by
      simp only [serviceExists, List.any_eq_false]
      intro x hx
      simpa using List.find?_eq_none.mp hf x hx
    simp [hex, PyResult.isOk]
  | some s =>
    have hid : s.id = sid := by simpa using List.find?_some hf
    have hex : serviceExists db sid = true := by
      simp only [serviceExists, List.any_eq_true]
      exact ⟨s, List.mem_of_find?_eq_some hf, by simp [hid]⟩
    simp only [serviceRowDelete, hid]
    cases href : serviceReferenced db sid with
    | true => simp [href, hex, PyResult.isOk]
    | false => simp [href, hex, PyResult.isOk]

theorem delete_appointment_isOk (db : DB) (aid : Nat) :
    (AppointmentRepository.delete_appointment db aid).isOk
      = !(appointmentExists db aid && appointmentReferenced db aid) := by
  unfold AppointmentRepository.delete_appointment
  cases hf : db.appointments.find? (fun a => a.id == aid) with
  | none =>
    have hex : appointmentExists db aid = false := by
      simp only [appointmentExists, List.any_eq_false]
      intro x hx
      simpa using List.find?_eq_none.mp hf x hx
    simp [hex, PyResult.isOk]
  | some a =>
    have hid : a.id = aid := by simpa using List.find?_some hf
    have hex : appointmentExists db aid = true := by
      simp only [appointmentExists, List.any_eq_true]
      exact ⟨a, List.mem_of_find?_eq_some hf, by simp [hid]⟩
    simp only [appointmentRowDelete, hid]
    cases href : appointmentReferenced db aid with
    | true => simp [href, hex, PyResult.isOk]
    | false => simp [href, hex, PyResult.isOk]

theorem delete_notification_isOk (db : DB) (nid : Nat) :
    (NotificationRepository.delete_notification db nid).isOk = true := by
  unfold NotificationRepository.delete_notification
  cases hf : db.notifications.find? (fun n => n.id == nid) with
  | none => rfl
  | some n => rfl

theorem create_user_isOk (db : DB) (newId : Nat) (d : UserCreateData) :
    (UserRepository.create_user db newId d).isOk = true := by
  unfold UserRepository.create_user
  split <;> rfl

theorem update_user_isOk (db : DB) (uid : Nat) (d : UserUpdateData) :
    (UserRepository.update_user db uid d).isOk = true := by
  unfold UserRepository.update_user
  cases hf : db.users.find? (fun u => u.id == uid) with
  | none => rfl
  | some u => dsimp only; split <;> rfl

theorem update_service_isOk (db : DB) (sid : Nat) (d : ServiceUpdateData) :
    (ServiceRepository.update_service db sid d).isOk = true := by
  unfold ServiceRepository.update_service
  cases hf : db.services.find? (fun s => s.id == sid) with
  | none => rfl
  | some s => dsimp only; split <;> rfl

theorem create_appointment_isOk (db : DB) (newId : Nat) (d : PyDict) :
    (AppointmentRepository.create_appointment db newId d).isOk = true := by
  unfold AppointmentRepository.create_appointment
  split
  · dsimp only
    split
    · rfl
    · split <;> rfl
  · rfl

theorem update_appointment_isOk (db : DB) (aid : Nat) (d : AppointmentUpdateData) :
    (AppointmentRepository.update_appointment db aid d).isOk = true := by
  unfold AppointmentRepository.update_appointment
  cases hf : db.appointments.find? (fun a => a.id == aid) with
  | none => rfl
  | some a => dsimp only; split <;> rfl

theorem create_notification_isOk (db : DB) (newId : Nat) (d : NotificationCreateData) :
    (NotificationRepository.create_notification db newId d).isOk = true := by
  unfold NotificationRepository.create_notification
  split <;> rfl

theorem update_notification_isOk (db : DB) (nid : Nat) (d : NotificationUpdateData) :
    (NotificationRepository.update_notification db nid d).isOk = true := by
  unfold NotificationRepository.update_notification
  cases hf : db.notifications.find? (fun n => n.id == nid) with
  | none => rfl
  | some n => rfl

/-- A malformed (non-integer) id never matches a stored row, so `get` by it
returns `None`. -/
theorem get_user_by_id_malformed (db : DB) (s : String) :
    UserRepository.get_user_by_id db (.vStr s) = .ok none := by
  unfold UserRepository.get_user_by_id
  congr 1
  rw [List.find?_eq_none]
  intro x hx
  simp [idMatches]

/-- **C2 counterexample**: in `dbOneConfirmation`, appointment 3 references
user 1 and service 2 through PROTECT foreign keys; the repository deletes
catch only `DoesNotExist`, so the `ProtectedError` raised by the blocked
delete escapes the repository instead of becoming a sentinel. -/
theorem c2_counterexample_protected_delete_escapes :
    UserRepository.delete_user dbOneConfirmation 1 = .exn "ProtectedError"
      ∧ ServiceRepository.delete_service dbOneConfirmation 2 = .exn "ProtectedError" := by
  exact ⟨by rfl, by rfl⟩

/-- **C2 amended**: every repository `get`-by-id (also on malformed ids),
`create` and `update` returns normally, converting storage errors into
`None` sentinels; `delete` returns normally — `False` on an absent id,
`True` on success — **except** when the target row exists and is still
referenced through a PROTECT foreign key, in which case the storage
exception escapes the repository (the delete is `isOk` exactly when the row
is absent or unreferenced). -/
theorem c2_amended_storage_error_containment (db : DB) (v : PyValue) (s : String)
    (newId uid sid aid nid : Nat) (ucd : UserCreateData) (uud : UserUpdateData)
    (sd ad : PyDict) (sud : ServiceUpdateData) (aud : AppointmentUpdateData)
    (ncd : NotificationCreateData) (nud : NotificationUpdateData) :
    (UserRepository.get_user_by_id db v).isOk = true
    ∧ UserRepository.get_user_by_id db (.vStr s) = .ok none
    ∧ (ServiceRepository.get_service_by_id db v).isOk = true
    ∧ (AppointmentRepository.get_appointment_by_id db v).isOk = true
    ∧ (NotificationRepository.get_notification_by_id db v).isOk = true
    ∧ (UserRepository.create_user db newId ucd).isOk = true
    ∧ (ServiceRepository.create_service db newId sd).isOk = true
    ∧ (AppointmentRepository.create_appointment db newId ad).isOk = true
    ∧ (NotificationRepository.create_notification db newId ncd).isOk = true
    ∧ (UserRepository.update_user db uid uud).isOk = true
    ∧ (ServiceRepository.update_service db sid sud).isOk = true
    ∧ (AppointmentRepository.update_appointment db aid aud).isOk = true
    ∧ (NotificationRepository.update_notification db nid nud).isOk = true
    ∧ (UserRepository.delete_user db uid).isOk
        = !(userExists db uid && userReferenced db uid)
    ∧ (ServiceRepository.delete_service db sid).isOk
        = !(serviceExists db sid && serviceReferenced db sid)
    ∧ (AppointmentRepository.delete_appointment db aid).isOk
        = !(appointmentExists db aid && appointmentReferenced db aid)
    ∧ (NotificationRepository.delete_notification db nid).isOk = true := by
  refine ⟨by rfl, get_user_by_id_malformed db s, by rfl, by rfl, by rfl,
    create_user_isOk db newId ucd, create_service_never_raises db newId sd,
    create_appointment_isOk db newId ad, create_notification_isOk db newId ncd,
    update_user_isOk db uid uud, update_service_isOk db sid sud,
    update_appointment_isOk db aid aud, update_notification_isOk db nid nud,
    delete_user_isOk db uid, delete_service_isOk db sid,
    delete_appointment_isOk db aid, delete_notification_isOk db nid⟩

theorem dictGet_dictSet (d : PyDict) (k k2 : String) (v : PyValue) :
    dictGet (dictSet d k v) k2 = if k == k2 then some v else dictGet d k2 := by
  by_cases h : k = k2
  · subst h
    simp [dictGet_dictSet_same]
  · simp [h, dictGet_dictSet_other d k k2 v (Ne.symm h)]

/-- **C10**: both service-layer `create` stamps overwrite the caller's
`created_at` / `updated_at` entries with the server clock readings — lookups
after stamping return the clock values, and any caller-supplied values at
those keys are invisible to every later lookup (so they never reach
validation or the repository); the `update` stamp overwrites `updated_at`
the same way but leaves `created_at` untouched. -/
theorem c10_create_update_stamping (d : PyDict) (n1 n2 n3 : PyDatetime) (v : PyValue) :
    dictGet (stampCreate d n1 n2) "created_at" = some (.vDatetime n1)
    ∧ dictGet (stampCreate d n1 n2) "updated_at" = some (.vDatetime n2)
    ∧ (∀ k, dictGet (stampCreate (dictSet d "created_at" v) n1 n2) k
          = dictGet (stampCreate d n1 n2) k)
    ∧ (∀ k, dictGet (stampCreate (dictSet d "updated_at" v) n1 n2) k
          = dictGet (stampCreate d n1 n2) k)
    ∧ dictGet (stampUpdate d n3) "updated_at" = some (.vDatetime n3)
    ∧ (∀ k, dictGet (stampUpdate (dictSet d "updated_at" v) n3) k
          = dictGet (stampUpdate d n3) k)
    ∧ dictGet (stampUpdate d n3) "created_at" = dictGet d "created_at" := by
  refine ⟨?_, ?_, ?_, ?_, ?_, ?_, ?_⟩
  · simp [stampCreate, dictGet_dictSet, dictGet_dictSet_same]
  · simp [stampCreate, dictGet_dictSet_same]
  · intro k
    simp [stampCreate, dictSet_dictSet_same]
  · intro k
    simp only [stampCreate, dictGet_dictSet]
    cases hu : (("updated_at" : String) == k) <;>
      cases hc : (("created_at" : String) == k) <;>
        simp [hu, hc, dictGet_dictSet]
  · simp [stampUpdate, dictGet_dictSet_same]
  · intro k
    simp [stampUpdate, dictSet_dictSet_same]
  · simp [stampUpdate, dictGet_dictSet]

end TressTime
